import Mathlib

/-!
Shallow embedding of the range trading strategy in src/range_strategy.py
(class RangeStrategy), together with theorems settling the specification
claims about it.

Modelling conventions:
- Python floats are modelled as rationals (ℚ); no floating-point rounding
  is modelled.  datetime.time values are modelled as minutes after
  midnight (ℕ); datetime timestamps as integers.
- A Python expression that raises an exception (subscripting None,
  comparing None with a number, float division by a zero divisor followed
  by math.floor of the resulting inf/nan) is modelled by returning `none`
  in `Option`; `some` means the Python call returns normally.
- The TA-Lib indicator functions (talib.ADX, talib.BBANDS, talib.RSI,
  talib.ATR) are an external library, not code of this repository.  No
  claim depends on the numeric values they produce, only on whether the
  strategy computed them at all, so they are abstracted as a record of
  total functions (`IndicatorFns`) passed to the embedding; theorems
  quantify over this record, so they hold for every possible indicator
  arithmetic.  Only the last element of each returned series is retained,
  because the source reads only index [-1].
-/

namespace RangeStrategy

/-- Exit reason passed to RangeStrategy.close_position: the source uses the
string literals for stop and target. -/
inductive ExitReason where
  | stop
  | target
deriving DecidableEq

/-- Result of one ib.placeOrder call, as seen by the order gateway.  The
source assigns the first result to a local variable and discards the other
two; none of the three is ever inspected. -/
inductive GatewayResult where
  | accepted
  | rejected
deriving DecidableEq

/-- One OHLCV bar (the new_row dict built in update_market_data).  The field
`open_` models the Python key named after the Lean keyword. -/
structure Bar where
  timestamp : ℤ
  open_ : ℚ
  high : ℚ
  low : ℚ
  close : ℚ
  volume : ℚ
deriving DecidableEq

/-- Strategy configuration: the keys produced by _validate_config.
trade_start_time and trade_end_time are minutes after midnight. -/
structure Config where
  adx_period : ℕ
  adx_threshold : ℚ
  bollinger_ma_period : ℕ
  bollinger_std_dev : ℚ
  rsi_period : ℕ
  rsi_oversold : ℚ
  rsi_overbought : ℚ
  atr_period : ℕ
  stop_loss_atr_multiplier : ℚ
  profit_target_pct : ℚ
  risk_per_trade_pct : ℚ
  max_trades_per_day : ℕ
  daily_loss_limit_pct : ℚ
  trade_start_time : ℕ
  trade_end_time : ℕ
deriving DecidableEq

/-- The defaults dict of _validate_config; time(9, 35) is minute 575 and
time(15, 55) is minute 955. -/
def defaultConfig : Config where
  adx_period := 14
  adx_threshold := 20
  bollinger_ma_period := 20
  bollinger_std_dev := 2
  rsi_period := 14
  rsi_oversold := 30
  rsi_overbought := 70
  atr_period := 14
  stop_loss_atr_multiplier := 3 / 2
  profit_target_pct := 3 / 200
  risk_per_trade_pct := 1 / 100
  max_trades_per_day := 5
  daily_loss_limit_pct := 1 / 50
  trade_start_time := 575
  trade_end_time := 955

/-- The dict stored in self.bollinger; only the last element of each series
is retained, since the source reads only index [-1]. -/
structure Bollinger where
  upper : ℚ
  middle : ℚ
  lower : ℚ
deriving DecidableEq

/-- The dict stored in self.position by execute_trade. -/
structure Position where
  entry_price : ℚ
  quantity : ℤ
  stop_price : ℚ
  target_price : ℚ
  entry_time : ℕ
deriving DecidableEq

/-- The trade_details dict built by close_position (logged, and stored in
self.last_trade). -/
structure TradeRecord where
  symbol : String
  entry_price : ℚ
  exit_price : ℚ
  quantity : ℤ
  pnl : ℚ
  duration : ℤ
  reason : ExitReason
deriving DecidableEq

/-- Abstraction of the external TA-Lib calls: each function receives the
configured period (plus the deviation multiplier for BBANDS) and the
current bar window, and yields the last element of the series the library
would return.  The strategy code treats these values as opaque numbers. -/
structure IndicatorFns where
  adx : ℕ → List Bar → ℚ
  bbands : ℕ → ℚ → List Bar → Bollinger
  rsi : ℕ → List Bar → ℚ
  atr : ℕ → List Bar → ℚ

/-- The mutable attributes of a RangeStrategy instance (those set in
__init__ and touched by the methods under verification). -/
structure State where
  symbol : String
  config : Config
  position : Option Position
  historical_data : List Bar
  current_price : Option ℚ
  adx : Option ℚ
  bollinger : Option Bollinger
  rsi : Option ℚ
  atr : Option ℚ
  trades_today : ℕ
  daily_pnl : ℚ
  last_trade : Option TradeRecord
deriving DecidableEq

/-- RangeStrategy.__init__ with an already-validated configuration: empty
window, no position, all indicators None, counters at zero. -/
def initState (symbol : String) (config : Config) : State where
  symbol := symbol
  config := config
  position := none
  historical_data := []
  current_price := none
  adx := none
  bollinger := none
  rsi := none
  atr := none
  trades_today := 0
  daily_pnl := 0
  last_trade := none

/-- pandas DataFrame.tail n: the last n rows of the list (all rows when the
list is shorter than n). -/
def pandasTail (n : ℕ) (l : List Bar) : List Bar :=
  l.drop (l.length - n)

/-- The window-length guard used by calculate_indicators, line 88:
max of adx_period, bollinger_ma_period and rsi_period.  Note the source
omits atr_period from this maximum. -/
def requiredPeriod (c : Config) : ℕ :=
  max c.adx_period (max c.bollinger_ma_period c.rsi_period)

/-- The window cap used by update_market_data, line 142: the same maximum
plus 20. -/
def windowCap (c : Config) : ℕ :=
  requiredPeriod c + 20

/-- RangeStrategy.calculate_indicators: if the window is shorter than the
maximum of the ADX, Bollinger and RSI periods, return early leaving every
indicator attribute as it was; otherwise recompute all four indicator
attributes from the current window via the TA-Lib calls. -/
def calculate_indicators (f : IndicatorFns) (s : State) : State :=
  if s.historical_data.length < requiredPeriod s.config then s
  else
    { s with
      adx := some (f.adx s.config.adx_period s.historical_data)
      bollinger := some (f.bbands s.config.bollinger_ma_period
        s.config.bollinger_std_dev s.historical_data)
      rsi := some (f.rsi s.config.rsi_period s.historical_data)
      atr := some (f.atr s.config.atr_period s.historical_data) }

/-- RangeStrategy.update_market_data: append the bar to the window, trim to
the cap with DataFrame.tail, set current_price to the close of the bar, and
recompute indicators.  The source performs no timestamp check of any
kind. -/
def update_market_data (f : IndicatorFns) (s : State) (bar : Bar) : State :=
  calculate_indicators f
    { s with
      historical_data := pandasTail (windowCap s.config) (s.historical_data ++ [bar])
      current_price := some bar.close }

/-- RangeStrategy.evaluate_entry, lines 149-179.  `now` is
datetime.now().time() in minutes.  `none` models a raised TypeError from
subscripting a None indicator (self.adx[-1], self.bollinger[...][-1],
self.rsi[-1]) or comparing a None current_price, which happens whenever the
corresponding attribute was never computed. -/
def evaluate_entry (s : State) (now : ℕ) : Option Bool :=
  if s.position.isSome then some false
  else
    match s.adx with
    | none => none
    | some adxv =>
      if s.config.adx_threshold < adxv then some false
      else
        match s.current_price, s.bollinger with
        | some cp, some bb =>
          if ¬ cp ≤ bb.lower then some false
          else
            match s.rsi with
            | none => none
            | some rsiv =>
              if s.config.rsi_oversold < rsiv then some false
              else if ¬ (s.config.trade_start_time ≤ now ∧ now ≤ s.config.trade_end_time) then
                some false
              else if s.config.max_trades_per_day ≤ s.trades_today then some false
              else if s.daily_pnl ≤ -s.config.daily_loss_limit_pct then some false
              else some true
        | _, _ => none

/-- RangeStrategy.calculate_position_size, lines 181-186.  `equity` is the
TotalCashValue returned by the external account query.  The source takes a
`price` argument that it never reads; it is omitted here.  There is no
guard on stop_distance: when atr[-1] is None the subscript raises
(`none`), and when stop_distance is zero the float division yields inf or
nan and math.floor then raises, so the call fails (`none`); otherwise the
result is floor(risk_amount / stop_distance). -/
def calculate_position_size (equity : ℚ) (s : State) : Option ℤ :=
  match s.atr with
  | none => none
  | some atrv =>
    let risk_amount := equity * s.config.risk_per_trade_pct
    let stop_distance := atrv * s.config.stop_loss_atr_multiplier
    if stop_distance = 0 then none
    else some ⌊risk_amount / stop_distance⌋

/-- RangeStrategy.execute_trade, lines 188-221.  The three ib.placeOrder
results (g1 g2 g3) are received but never inspected by the source: the
position dict is created and trades_today incremented unconditionally
after submission.  `none` propagates an exception from evaluate_entry or
calculate_position_size. -/
def execute_trade (s : State) (now : ℕ) (equity : ℚ)
    (g1 g2 g3 : GatewayResult) : Option State :=
  match evaluate_entry s now with
  | none => none
  | some false => some s
  | some true =>
    match calculate_position_size equity s with
    | none => none
    | some quantity =>
      if quantity ≤ 0 then some s
      else
        match s.current_price, s.atr with
        | some cp, some atrv =>
          some
            { s with
              position := some
                { entry_price := cp
                  quantity := quantity
                  stop_price := cp - atrv * s.config.stop_loss_atr_multiplier
                  target_price := cp * (1 + s.config.profit_target_pct)
                  entry_time := now }
              trades_today := s.trades_today + 1 }
        | _, _ => none

/-- RangeStrategy.close_position, lines 234-258.  Computes the pnl from
current_price, accumulates it into daily_pnl, logs exactly one
trade_details record (returned here alongside the state and stored in
last_trade), and clears the position.  With no position it is a no-op; with
a None current_price the pnl arithmetic raises (`none`). -/
def close_position (s : State) (reason : ExitReason) (now : ℕ) :
    Option (State × Option TradeRecord) :=
  match s.position with
  | none => some (s, none)
  | some p =>
    match s.current_price with
    | none => none
    | some exit_price =>
      let pnl := (exit_price - p.entry_price) * (p.quantity : ℚ)
      let td : TradeRecord :=
        { symbol := s.symbol
          entry_price := p.entry_price
          exit_price := exit_price
          quantity := p.quantity
          pnl := pnl
          duration := (now : ℤ) - (p.entry_time : ℤ)
          reason := reason }
      some ({ s with daily_pnl := s.daily_pnl + pnl
                     position := none
                     last_trade := some td }, some td)

/-- RangeStrategy.manage_position, lines 223-232: with a position open,
check the stop condition first, then the target condition, and close with
the corresponding reason; otherwise do nothing.  A None current_price makes
the comparison raise (`none`). -/
def manage_position (s : State) (now : ℕ) :
    Option (State × Option TradeRecord) :=
  match s.position with
  | none => some (s, none)
  | some p =>
    match s.current_price with
    | none => none
    | some cp =>
      if cp ≤ p.stop_price then close_position s ExitReason.stop now
      else if p.target_price ≤ cp then close_position s ExitReason.target now
      else some (s, none)

/-- A fixed trivial instantiation of the TA-Lib abstraction, used for
concrete evaluations; every indicator value is 0. -/
def talibZero : IndicatorFns where
  adx := fun _ _ => 0
  bbands := fun _ _ _ => { upper := 0, middle := 0, lower := 0 }
  rsi := fun _ _ => 0
  atr := fun _ _ => 0

/-- A freshly constructed strategy with the default configuration. -/
def s0 : State := initState "AAPL" defaultConfig

/-- A generic market bar. -/
def bar0 : Bar :=
  { timestamp := 0, open_ := 100, high := 101, low := 99, close := 100, volume := 1000 }

/-- Fresh strategy whose last ATR value is negative. -/
def sNegAtr : State := { s0 with atr := some (-2) }

/-- The sizing scenario of the spec: ATR 2 with the default configuration
(risk_per_trade_pct 0.01, stop_loss_atr_multiplier 1.5). -/
def scenarioC7 : State := { s0 with atr := some 2 }

/-- A state in which every entry condition holds at minute 600 (10:00):
no position, ADX 15 at most the threshold 20, price 49 at most the lower
band 50, RSI 25 at most 30, zero trades and zero pnl, positive ATR. -/
def sReady : State :=
  { s0 with
    adx := some 15
    bollinger := some { upper := 51, middle := 101 / 2, lower := 50 }
    rsi := some 25
    atr := some 2
    current_price := some 49 }

/-- Same entry-ready state but with a negative ATR value, so the computed
quantity is negative. -/
def sReadyNeg : State := { sReady with atr := some (-2) }

/-- A strategy that has already traded three times for a daily loss of 7,
with a full indicator window of 25 bars from one trading day. -/
def sDay : State :=
  { s0 with historical_data := List.replicate 25 bar0, trades_today := 3, daily_pnl := -7 }

/-- The first bar of the following trading day (timestamp one day later). -/
def barNextDay : Bar :=
  { timestamp := 90000, open_ := 100, high := 101, low := 99, close := 100, volume := 1000 }

/-- The state after feeding the first bar of the new day to sDay. -/
def cycleState : State := update_market_data talibZero sDay barNextDay

/-- A strategy that has reached the daily trade limit of the default
configuration. -/
def sMaxed : State := { s0 with trades_today := 5 }

/-- A bar with timestamp 100, retained as the last row of the window. -/
def barT100 : Bar :=
  { timestamp := 100, open_ := 10, high := 11, low := 9, close := 10, volume := 1 }

/-- An out-of-order bar: its timestamp 50 precedes the last retained
bar. -/
def bStale : Bar :=
  { timestamp := 50, open_ := 7, high := 8, low := 6, close := 7, volume := 1 }

/-- A strategy whose window holds the single bar barT100. -/
def sOrd : State := { s0 with historical_data := [barT100] }

/-- An open position bought at 100 for 10 shares with stop 98 and target
105. -/
def p8 : Position :=
  { entry_price := 100, quantity := 10, stop_price := 98, target_price := 105, entry_time := 0 }

/-- Strategy holding p8 with the market now at 103 (above entry). -/
def s8 : State := { s0 with position := some p8, current_price := some 103 }

/-- Strategy holding p8 with the market at 97, below the stop price 98. -/
def s9 : State := { s0 with position := some p8, current_price := some 97 }

/-- The trade record produced by closing p8 at price 103 at minute 5. -/
def rec8 : TradeRecord :=
  { symbol := "AAPL", entry_price := 100, exit_price := 103, quantity := 10,
    pnl := 30, duration := 5, reason := ExitReason.target }

/-- The trade record produced by the stop exit of p8 at price 97. -/
def rec9 : TradeRecord :=
  { symbol := "AAPL", entry_price := 100, exit_price := 97, quantity := 10,
    pnl := -30, duration := 0, reason := ExitReason.stop }

/-- calculate_indicators never touches the window, the position, the price,
the counters or the configuration: it only writes the four indicator
attributes. -/
theorem calculate_indicators_fields (f : IndicatorFns) (s : State) :
    (calculate_indicators f s).historical_data = s.historical_data ∧
    (calculate_indicators f s).position = s.position ∧
    (calculate_indicators f s).current_price = s.current_price ∧
    (calculate_indicators f s).trades_today = s.trades_today ∧
    (calculate_indicators f s).daily_pnl = s.daily_pnl ∧
    (calculate_indicators f s).config = s.config := by
  unfold calculate_indicators
  split <;> exact ⟨rfl, rfl, rfl, rfl, rfl, rfl⟩

/-- The window produced by update_market_data is the appended window
trimmed by DataFrame.tail, and current_price becomes the close of the
incoming bar, for every bar whatsoever. -/
theorem update_market_data_window (f : IndicatorFns) (s : State) (bar : Bar) :
    (update_market_data f s bar).historical_data =
      pandasTail (windowCap s.config) (s.historical_data ++ [bar]) ∧
    (update_market_data f s bar).current_price = some bar.close := by
  unfold update_market_data
  exact ⟨(calculate_indicators_fields f _).1, (calculate_indicators_fields f _).2.2.1⟩

/-- C6: after every update_market_data call, the number of retained bars is
at most the maximum of all four configured indicator periods
(adx_period, bollinger_ma_period, rsi_period, atr_period) plus the margin
20.  The source trims with tail to max of the first three periods plus 20,
which never exceeds this bound. -/
theorem c6_window_cap (f : IndicatorFns) (s : State) (bar : Bar) :
    (update_market_data f s bar).historical_data.length ≤
      max (max s.config.adx_period s.config.bollinger_ma_period)
        (max s.config.rsi_period s.config.atr_period) + 20 := by
  rw [(update_market_data_window f s bar).1]
  have hcap : (pandasTail (windowCap s.config) (s.historical_data ++ [bar])).length ≤
      windowCap s.config := by
    unfold pandasTail
    rw [List.length_drop]
    omega
  have hbound : windowCap s.config ≤
      max (max s.config.adx_period s.config.bollinger_ma_period)
        (max s.config.rsi_period s.config.atr_period) + 20 := by
    unfold windowCap requiredPeriod
    have h1 := le_max_left s.config.adx_period s.config.bollinger_ma_period
    have h2 := le_max_right s.config.adx_period s.config.bollinger_ma_period
    have h3 := le_max_left s.config.rsi_period s.config.atr_period
    have h4 := le_max_left (max s.config.adx_period s.config.bollinger_ma_period)
      (max s.config.rsi_period s.config.atr_period)
    have h5 := le_max_right (max s.config.adx_period s.config.bollinger_ma_period)
      (max s.config.rsi_period s.config.atr_period)
    omega
  omega

/-- C7: for positive volatility (and a positive stop-loss multiplier, so
that the stop distance is a valid divisor), the computed position size is
exactly floor(equity * risk_per_trade_pct / (atr *
stop_loss_atr_multiplier)); and on the spec scenario (equity 100000, ATR 2,
defaults) the size is 333. -/
theorem c7_size_formula :
    (∀ (equity : ℚ) (s : State) (atrv : ℚ),
        s.atr = some atrv → 0 < atrv → 0 < s.config.stop_loss_atr_multiplier →
        calculate_position_size equity s =
          some ⌊equity * s.config.risk_per_trade_pct /
            (atrv * s.config.stop_loss_atr_multiplier)⌋) ∧
    calculate_position_size 100000 scenarioC7 = some 333 := by
  constructor
  · intro equity s atrv hatr hpos hmul
    unfold calculate_position_size
    rw [hatr]
    simp only
    rw [if_neg (ne_of_gt (mul_pos hpos hmul))]
  · norm_num [calculate_position_size, scenarioC7, s0, initState, defaultConfig]

/-- Witness for C7: the formula theorem applied at the spec scenario. -/
theorem c7_witness :
    scenarioC7.atr = some 2 ∧ (0 : ℚ) < 2 ∧
    0 < scenarioC7.config.stop_loss_atr_multiplier ∧
    calculate_position_size 100000 scenarioC7 =
      some ⌊(100000 : ℚ) * scenarioC7.config.risk_per_trade_pct /
        (2 * scenarioC7.config.stop_loss_atr_multiplier)⌋ :=
  ⟨rfl, by norm_num, by norm_num [scenarioC7, s0, initState, defaultConfig],
    c7_size_formula.1 100000 scenarioC7 2 rfl (by norm_num)
      (by norm_num [scenarioC7, s0, initState, defaultConfig])⟩

/-- C10: whenever a position is present, evaluate_entry returns False
immediately, for every combination of indicator values, current price,
clock time and throttle counters (all carried by the state s and the
argument now). -/
theorem c10_no_entry_while_position (s : State) (now : ℕ)
    (h : s.position.isSome = true) : evaluate_entry s now = some false := by
  unfold evaluate_entry
  rw [if_pos h]

/-- Witness for C10: a state holding a position, on which evaluate_entry
returns False. -/
theorem c10_witness :
    s8.position.isSome = true ∧ evaluate_entry s8 600 = some false :=
  ⟨rfl, c10_no_entry_while_position s8 600 rfl⟩

/-- C2: from a fresh strategy with the default configuration, one bar
leaves the window (length 1) below every configured period, so
calculate_indicators returns early and all four indicator attributes stay
None — but evaluate_entry on that state then raises a TypeError when it
subscripts the None ADX series (modelled by none), instead of evaluating
totally to false as the claim states. -/
theorem c2_undefined_indicator_crash :
    (update_market_data talibZero s0 bar0).adx = none ∧
    (update_market_data talibZero s0 bar0).bollinger = none ∧
    (update_market_data talibZero s0 bar0).rsi = none ∧
    (update_market_data talibZero s0 bar0).atr = none ∧
    (update_market_data talibZero s0 bar0).position = none ∧
    evaluate_entry (update_market_data talibZero s0 bar0) 600 = none :=
  ⟨rfl, rfl, rfl, rfl, rfl, rfl⟩

/-- C5 counterexample: a bar whose timestamp 50 is not greater than the
last retained timestamp 100 is nevertheless appended to the window,
current_price is set from it, and the cycle proceeds — it is not dropped
and the cycle is not skipped. -/
theorem c5_counterexample :
    bStale.timestamp ≤ barT100.timestamp ∧
    (update_market_data talibZero sOrd bStale).historical_data = [barT100, bStale] ∧
    (update_market_data talibZero sOrd bStale).current_price = some 7 :=
  ⟨by norm_num [bStale, barT100], rfl, rfl⟩

/-- C5 amended: update_market_data performs no timestamp validation at all.
Even when the incoming bar is not newer than the last retained bar, it is
appended (the window is only trimmed to the cap) and current_price is set
to its close, exactly as for an in-order bar. -/
theorem c5_amended (f : IndicatorFns) (s : State) (bar b_last : Bar)
    (hlast : s.historical_data.getLast? = some b_last)
    (hts : bar.timestamp ≤ b_last.timestamp) :
    (update_market_data f s bar).historical_data =
      pandasTail (windowCap s.config) (s.historical_data ++ [bar]) ∧
    (update_market_data f s bar).current_price = some bar.close :=
  update_market_data_window f s bar

/-- Witness for C5 amended: the out-of-order bar bStale behind barT100. -/
theorem c5_witness :
    sOrd.historical_data.getLast? = some barT100 ∧
    bStale.timestamp ≤ barT100.timestamp ∧
    ((update_market_data talibZero sOrd bStale).historical_data =
      pandasTail (windowCap sOrd.config) (sOrd.historical_data ++ [bStale]) ∧
    (update_market_data talibZero sOrd bStale).current_price = some bStale.close) :=
  ⟨rfl, by norm_num [bStale, barT100],
    c5_amended talibZero sOrd bStale barT100 rfl (by norm_num [bStale, barT100])⟩

/-- C8: closing any open position realizes pnl = (exit - entry) * quantity,
accumulates it into daily_pnl, emits exactly one trade record carrying the
exit reason, and clears the position; and on the spec scenario
(entry 100, exit 103, quantity 10) the realized pnl is 30. -/
theorem c8_close_position_pnl :
    (∀ (s : State) (p : Position) (cp : ℚ) (r : ExitReason) (now : ℕ),
        s.position = some p → s.current_price = some cp →
        ∃ rec : TradeRecord,
          close_position s r now =
            some ({ s with
                    daily_pnl := s.daily_pnl + (cp - p.entry_price) * (p.quantity : ℚ),
                    position := none,
                    last_trade := some rec }, some rec) ∧
          rec.pnl = (cp - p.entry_price) * (p.quantity : ℚ) ∧ rec.reason = r ∧
          rec.entry_price = p.entry_price ∧ rec.exit_price = cp ∧
          rec.quantity = p.quantity) ∧
    (∃ st : State, close_position s8 ExitReason.target 5 = some (st, some rec8) ∧
      rec8.pnl = 30 ∧ st.daily_pnl = 30 ∧ st.position = none) := by
  constructor
  · intro s p cp r now hp hcp
    unfold close_position
    rw [hp, hcp]
    exact ⟨_, rfl, rfl, rfl, rfl, rfl, rfl⟩
  · refine ⟨{ s8 with daily_pnl := 30, position := none, last_trade := some rec8 },
      ?_, rfl, rfl, rfl⟩
    norm_num [close_position, s8, p8, s0, initState, rec8]

/-- Witness for C8: closing the concrete position p8 (entry 100, quantity
10) at price 103 realizes pnl 30 and clears the position. -/
theorem c8_witness :
    s8.position = some p8 ∧ s8.current_price = some 103 ∧
    (∃ rec : TradeRecord,
      close_position s8 ExitReason.target 5 =
        some ({ s8 with
                daily_pnl := s8.daily_pnl + ((103 : ℚ) - p8.entry_price) * (p8.quantity : ℚ),
                position := none,
                last_trade := some rec }, some rec) ∧
      rec.pnl = ((103 : ℚ) - p8.entry_price) * (p8.quantity : ℚ) ∧
      rec.reason = ExitReason.target ∧ rec.entry_price = p8.entry_price ∧
      rec.exit_price = 103 ∧ rec.quantity = p8.quantity) :=
  ⟨rfl, rfl, c8_close_position_pnl.1 s8 p8 103 ExitReason.target 5 rfl rfl⟩

/-- C9: manage_position checks the stop before the target: whenever
current_price is at most the stop price the exit reason is stop,
regardless of whether the target condition also holds; only otherwise is
the target checked; with neither condition there is no exit.  On the spec
scenario (stop 98, target 105, price 97) the position exits with reason
stop. -/
theorem c9_stop_before_target :
    (∀ (s : State) (p : Position) (cp : ℚ) (now : ℕ),
        s.position = some p → s.current_price = some cp → cp ≤ p.stop_price →
        manage_position s now = close_position s ExitReason.stop now) ∧
    (∀ (s : State) (p : Position) (cp : ℚ) (now : ℕ),
        s.position = some p → s.current_price = some cp →
        ¬ cp ≤ p.stop_price → p.target_price ≤ cp →
        manage_position s now = close_position s ExitReason.target now) ∧
    (∀ (s : State) (p : Position) (cp : ℚ) (now : ℕ),
        s.position = some p → s.current_price = some cp →
        ¬ cp ≤ p.stop_price → ¬ p.target_price ≤ cp →
        manage_position s now = some (s, none)) ∧
    (∃ st : State, manage_position s9 0 = some (st, some rec9) ∧
        rec9.reason = ExitReason.stop ∧ st.position = none) := by
  refine ⟨?_, ?_, ?_, ?_⟩
  · intro s p cp now hp hcp hstop
    unfold manage_position
    rw [hp, hcp]
    simp [hstop]
  · intro s p cp now hp hcp hstop htgt
    unfold manage_position
    rw [hp, hcp]
    simp [hstop, htgt]
  · intro s p cp now hp hcp hstop htgt
    unfold manage_position
    rw [hp, hcp]
    simp [hstop, htgt]
  · refine ⟨{ s9 with daily_pnl := -30, position := none, last_trade := some rec9 },
      ?_, rfl, rfl⟩
    norm_num [manage_position, close_position, s9, p8, s0, initState, rec9]

/-- Witness for C9: the spec scenario state s9 (stop 98, target 105,
price 97) takes the stop branch. -/
theorem c9_witness :
    s9.position = some p8 ∧ s9.current_price = some 97 ∧ (97 : ℚ) ≤ p8.stop_price ∧
    manage_position s9 0 = close_position s9 ExitReason.stop 0 :=
  ⟨rfl, rfl, by norm_num [p8],
    c9_stop_before_target.1 s9 p8 97 0 rfl rfl (by norm_num [p8])⟩

/-- C1 counterexample: with ATR -2 (stop_distance -3, so zero-or-negative
volatility as the claim puts it) the sizing call does not fail with any
error: it returns the quantity floor(1000 / -3) = -334.  No InvalidRisk
guard exists in the source. -/
theorem c1_counterexample :
    calculate_position_size 100000 sNegAtr = some (-334) := by
  norm_num [calculate_position_size, sNegAtr, s0, initState, defaultConfig]

/-- C1 amended: calculate_position_size has no InvalidRisk guard.  With
negative volatility it succeeds and returns a non-positive quantity (which
execute_trade then silently discards through its quantity-at-most-zero
check, aborting entry without surfacing any error); only with volatility
exactly zero does the call fail, as an unhandled arithmetic failure of the
division and floor, not as a typed InvalidRisk error. -/
theorem c1_amended :
    (∀ (equity : ℚ) (s : State) (atrv : ℚ),
        s.atr = some atrv → atrv < 0 → 0 ≤ equity →
        0 ≤ s.config.risk_per_trade_pct → 0 < s.config.stop_loss_atr_multiplier →
        ∃ q : ℤ, calculate_position_size equity s = some q ∧ q ≤ 0) ∧
    (∀ (equity : ℚ) (s : State), s.atr = some 0 →
        calculate_position_size equity s = none) ∧
    (∀ (s : State) (now : ℕ) (equity : ℚ) (g1 g2 g3 : GatewayResult) (q : ℤ),
        evaluate_entry s now = some true →
        calculate_position_size equity s = some q → q ≤ 0 →
        execute_trade s now equity g1 g2 g3 = some s) := by
  refine ⟨?_, ?_, ?_⟩
  · intro equity s atrv hatr hneg heq hpct hmul
    unfold calculate_position_size
    rw [hatr]
    simp only
    have hstop : atrv * s.config.stop_loss_atr_multiplier < 0 :=
      mul_neg_of_neg_of_pos hneg hmul
    rw [if_neg (ne_of_lt hstop)]
    refine ⟨_, rfl, ?_⟩
    have hdiv : equity * s.config.risk_per_trade_pct /
        (atrv * s.config.stop_loss_atr_multiplier) ≤ 0 := by
      rw [div_nonpos_iff]
      left
      exact ⟨mul_nonneg heq hpct, le_of_lt hstop⟩
    exact Int.floor_nonpos hdiv
  · intro equity s hatr
    unfold calculate_position_size
    rw [hatr]
    simp
  · intro s now equity g1 g2 g3 q hEval hSize hq
    unfold execute_trade
    rw [hEval, hSize]
    simp [hq]

/-- Witness for C1 amended: ATR -2 yields quantity -334 with no error; ATR
0 fails; an entry-ready state with ATR -2 leaves execute_trade a no-op. -/
theorem c1_witness :
    (sNegAtr.atr = some (-2) ∧ (-2 : ℚ) < 0 ∧ (0 : ℚ) ≤ 100000 ∧
      0 ≤ sNegAtr.config.risk_per_trade_pct ∧
      0 < sNegAtr.config.stop_loss_atr_multiplier ∧
      ∃ q : ℤ, calculate_position_size 100000 sNegAtr = some q ∧ q ≤ 0) ∧
    (({ s0 with atr := some (0 : ℚ) } : State).atr = some (0 : ℚ) ∧
      calculate_position_size 100000 { s0 with atr := some (0 : ℚ) } = none) ∧
    (evaluate_entry sReadyNeg 600 = some true ∧
      calculate_position_size 100000 sReadyNeg = some (-334) ∧ (-334 : ℤ) ≤ 0 ∧
      execute_trade sReadyNeg 600 100000 GatewayResult.rejected GatewayResult.rejected
        GatewayResult.rejected = some sReadyNeg) := by
  have hpct : 0 ≤ sNegAtr.config.risk_per_trade_pct := by
    norm_num [sNegAtr, s0, initState, defaultConfig]
  have hmul : 0 < sNegAtr.config.stop_loss_atr_multiplier := by
    norm_num [sNegAtr, s0, initState, defaultConfig]
  have hEval : evaluate_entry sReadyNeg 600 = some true := by
    norm_num [evaluate_entry, sReadyNeg, sReady, s0, initState, defaultConfig]
  have hSize : calculate_position_size 100000 sReadyNeg = some (-334) := by
    norm_num [calculate_position_size, sReadyNeg, sReady, s0, initState, defaultConfig]
  exact ⟨⟨rfl, by norm_num, by norm_num, hpct, hmul,
      c1_amended.1 100000 sNegAtr (-2) rfl (by norm_num) (by norm_num) hpct hmul⟩,
    ⟨rfl, c1_amended.2.1 100000 _ rfl⟩,
    hEval, hSize, by norm_num,
    c1_amended.2.2 sReadyNeg 600 100000 GatewayResult.rejected GatewayResult.rejected
      GatewayResult.rejected (-334) hEval hSize (by norm_num)⟩

/-- C4 counterexample: in the entry-ready state sReady, even when all three
order submissions come back rejected, execute_trade still creates the
Position, increments trades_today to 1 and reports no failure — the state
machine does not revert to Flat on rejection. -/
theorem c4_counterexample :
    execute_trade sReady 600 100000 GatewayResult.rejected GatewayResult.rejected
        GatewayResult.rejected =
      some { sReady with
             position := some { entry_price := 49, quantity := 333, stop_price := 46,
                                target_price := 49 * (1 + 3 / 200), entry_time := 600 },
             trades_today := 1 } := by
  norm_num [execute_trade, evaluate_entry, calculate_position_size, sReady, s0, initState,
    defaultConfig]

/-- C4 amended: execute_trade never inspects the gateway responses — its
result is identical for every combination of accepted and rejected
responses — and on an eligible entry with positive quantity it creates the
Position and increments trades_today unconditionally, surfacing no
failure. -/
theorem c4_amended :
    (∀ (s : State) (now : ℕ) (equity : ℚ) (g1 g2 g3 h1 h2 h3 : GatewayResult),
        execute_trade s now equity g1 g2 g3 = execute_trade s now equity h1 h2 h3) ∧
    (∀ (s : State) (now : ℕ) (equity : ℚ) (g1 g2 g3 : GatewayResult) (q : ℤ)
        (cp atrv : ℚ),
        evaluate_entry s now = some true →
        calculate_position_size equity s = some q → 0 < q →
        s.current_price = some cp → s.atr = some atrv →
        execute_trade s now equity g1 g2 g3 =
          some { s with
                 position := some { entry_price := cp, quantity := q,
                                    stop_price := cp - atrv * s.config.stop_loss_atr_multiplier,
                                    target_price := cp * (1 + s.config.profit_target_pct),
                                    entry_time := now },
                 trades_today := s.trades_today + 1 }) := by
  constructor
  · intro s now equity g1 g2 g3 h1 h2 h3
    rfl
  · intro s now equity g1 g2 g3 q cp atrv hEval hSize hq hcp hatr
    unfold execute_trade
    rw [hEval, hSize, hcp, hatr]
    simp [not_le.mpr hq]

/-- Witness for C4 amended: in sReady the result with three accepted
responses equals the result with three rejected ones, and the rejected run
creates the position and increments the counter. -/
theorem c4_witness :
    execute_trade sReady 600 100000 GatewayResult.accepted GatewayResult.accepted
        GatewayResult.accepted =
      execute_trade sReady 600 100000 GatewayResult.rejected GatewayResult.rejected
        GatewayResult.rejected ∧
    (evaluate_entry sReady 600 = some true ∧
      calculate_position_size 100000 sReady = some 333 ∧ (0 : ℤ) < 333 ∧
      sReady.current_price = some 49 ∧ sReady.atr = some 2 ∧
      execute_trade sReady 600 100000 GatewayResult.rejected GatewayResult.rejected
          GatewayResult.rejected =
        some { sReady with
               position := some { entry_price := 49, quantity := 333,
                                  stop_price := 49 - 2 * sReady.config.stop_loss_atr_multiplier,
                                  target_price := 49 * (1 + sReady.config.profit_target_pct),
                                  entry_time := 600 },
               trades_today := sReady.trades_today + 1 }) := by
  have hEval : evaluate_entry sReady 600 = some true := by
    norm_num [evaluate_entry, sReady, s0, initState, defaultConfig]
  have hSize : calculate_position_size 100000 sReady = some 333 := by
    norm_num [calculate_position_size, sReady, s0, initState, defaultConfig]
  exact ⟨c4_amended.1 sReady 600 100000 GatewayResult.accepted GatewayResult.accepted
      GatewayResult.accepted GatewayResult.rejected GatewayResult.rejected GatewayResult.rejected,
    hEval, hSize, by norm_num, rfl, rfl,
    c4_amended.2 sReady 600 100000 GatewayResult.rejected GatewayResult.rejected
      GatewayResult.rejected 333 49 2 hEval hSize (by norm_num) rfl rfl⟩

/-- With the trade limit reached, evaluate_entry can return false or raise,
but never returns true, whatever the indicators, price, clock or pnl. -/
theorem evaluate_entry_never_true_at_limit :
    ∀ (s : State) (now : ℕ), s.config.max_trades_per_day ≤ s.trades_today →
      evaluate_entry s now ≠ some true := by
  intro s now hmax h
  obtain ⟨sym, cfg, pos, hist, cp, adx, bb, rsi, atr, tt, pnl, lt⟩ := s
  simp only at hmax
  cases pos <;> cases adx <;> cases cp <;> cases bb <;> cases rsi <;>
    simp only [evaluate_entry] at h <;>
    first
      | exact Option.noConfusion h
      | (split_ifs at h <;> simp_all)

/-- close_position never changes trades_today. -/
theorem close_position_trades_today (s : State) (r : ExitReason) (now : ℕ)
    (st : State) (tr : Option TradeRecord)
    (h : close_position s r now = some (st, tr)) :
    st.trades_today = s.trades_today := by
  unfold close_position at h
  cases hp : s.position with
  | none =>
    rw [hp] at h
    simp only [Option.some.injEq, Prod.mk.injEq] at h
    rw [← h.1]
  | some p =>
    rw [hp] at h
    cases hcp : s.current_price with
    | none =>
      rw [hcp] at h
      simp at h
    | some cp =>
      rw [hcp] at h
      simp only [Option.some.injEq, Prod.mk.injEq] at h
      rw [← h.1]

/-- manage_position never changes trades_today. -/
theorem manage_position_trades_today (s : State) (now : ℕ) (st : State)
    (r : Option TradeRecord) (h : manage_position s now = some (st, r)) :
    st.trades_today = s.trades_today := by
  unfold manage_position at h
  cases hp : s.position with
  | none =>
    rw [hp] at h
    simp only [Option.some.injEq, Prod.mk.injEq] at h
    rw [← h.1]
  | some p =>
    rw [hp] at h
    cases hcp : s.current_price with
    | none =>
      rw [hcp] at h
      simp at h
    | some cp =>
      rw [hcp] at h
      simp only [] at h
      split_ifs at h
      · exact close_position_trades_today s ExitReason.stop now st r h
      · exact close_position_trades_today s ExitReason.target now st r h
      · simp only [Option.some.injEq, Prod.mk.injEq] at h
        rw [← h.1]

/-- execute_trade never decreases trades_today (it increments it exactly
when an entry goes through). -/
theorem execute_trade_trades_mono (s : State) (now : ℕ) (equity : ℚ)
    (g1 g2 g3 : GatewayResult) (st : State)
    (h : execute_trade s now equity g1 g2 g3 = some st) :
    s.trades_today ≤ st.trades_today := by
  unfold execute_trade at h
  cases hE : evaluate_entry s now with
  | none =>
    rw [hE] at h
    simp at h
  | some b =>
    rw [hE] at h
    cases b with
    | false =>
      simp only [Option.some.injEq] at h
      rw [← h]
    | true =>
      cases hS : calculate_position_size equity s with
      | none =>
        rw [hS] at h
        simp at h
      | some q =>
        rw [hS] at h
        simp only [] at h
        split_ifs at h
        · simp only [Option.some.injEq] at h
          rw [← h]
        · cases hcp : s.current_price with
          | none =>
            rw [hcp] at h
            cases hatr : s.atr <;> rw [hatr] at h <;> simp at h
          | some cp =>
            rw [hcp] at h
            cases hatr : s.atr with
            | none =>
              rw [hatr] at h
              simp at h
            | some atrv =>
              rw [hatr] at h
              simp only [Option.some.injEq] at h
              rw [← h]
              simp

/-- C3 counterexample: a strategy that made 3 trades for a loss of 7 on one
day processes the first bar of the next trading day through a full cycle
(update_market_data, manage_position, execute_trade) and still has
trades_today = 3 and daily_pnl = -7 afterwards: no operation zeroes the
daily counters, so no reset_for_new_day is invoked once per new trading
day. -/
theorem c3_counterexample :
    cycleState.trades_today = 3 ∧ cycleState.daily_pnl = -7 ∧
    manage_position cycleState 600 = some (cycleState, none) ∧
    execute_trade cycleState 600 100000 GatewayResult.rejected GatewayResult.rejected
      GatewayResult.rejected = some cycleState :=
  ⟨rfl, rfl, rfl, rfl⟩

/-- C3 amended: once trades_today has reached max_trades_per_day,
evaluate_entry never returns true; but the source has no reset_for_new_day:
update_market_data and manage_position leave trades_today (and, for
update_market_data, daily_pnl) unchanged and execute_trade never decreases
trades_today, so the counters persist across day boundaries and are never
zeroed. -/
theorem c3_amended :
    (∀ (s : State) (now : ℕ), s.config.max_trades_per_day ≤ s.trades_today →
        evaluate_entry s now ≠ some true) ∧
    (∀ (f : IndicatorFns) (s : State) (bar : Bar),
        (update_market_data f s bar).trades_today = s.trades_today ∧
        (update_market_data f s bar).daily_pnl = s.daily_pnl) ∧
    (∀ (s : State) (now : ℕ) (st : State) (r : Option TradeRecord),
        manage_position s now = some (st, r) → st.trades_today = s.trades_today) ∧
    (∀ (s : State) (now : ℕ) (equity : ℚ) (g1 g2 g3 : GatewayResult) (st : State),
        execute_trade s now equity g1 g2 g3 = some st →
        s.trades_today ≤ st.trades_today) :=
  ⟨evaluate_entry_never_true_at_limit,
    fun f s bar => ⟨(calculate_indicators_fields f _).2.2.2.1,
      (calculate_indicators_fields f _).2.2.2.2.1⟩,
    manage_position_trades_today,
    execute_trade_trades_mono⟩

/-- Witness for C3 amended: at the limit (5 of 5 trades) entry is refused;
the concrete cycle operations preserve the counters. -/
theorem c3_witness :
    sMaxed.config.max_trades_per_day ≤ sMaxed.trades_today ∧
    evaluate_entry sMaxed 600 ≠ some true ∧
    ((update_market_data talibZero sMaxed bar0).trades_today = sMaxed.trades_today ∧
      (update_market_data talibZero sMaxed bar0).daily_pnl = sMaxed.daily_pnl) ∧
    (manage_position s0 600 = some (s0, none) ∧ s0.trades_today = s0.trades_today) ∧
    (execute_trade cycleState 600 100000 GatewayResult.accepted GatewayResult.accepted
        GatewayResult.accepted = some cycleState ∧
      cycleState.trades_today ≤ cycleState.trades_today) := by
  have h1 : sMaxed.config.max_trades_per_day ≤ sMaxed.trades_today := by
    norm_num [sMaxed, s0, initState, defaultConfig]
  have hm : manage_position s0 600 = some (s0, none) := rfl
  have hx : execute_trade cycleState 600 100000 GatewayResult.accepted GatewayResult.accepted
      GatewayResult.accepted = some cycleState := rfl
  exact ⟨h1, c3_amended.1 sMaxed 600 h1, c3_amended.2.1 talibZero sMaxed bar0,
    ⟨hm, c3_amended.2.2.1 s0 600 s0 none hm⟩,
    ⟨hx, c3_amended.2.2.2 cycleState 600 100000 GatewayResult.accepted GatewayResult.accepted
      GatewayResult.accepted cycleState hx⟩⟩

end RangeStrategy
